import Mathlib

/-!
Shallow embedding of `continuum/tasks/utils.py`: the balanced-sampler
builder `get_balanced_sampler`, the train/validation splitter
`split_train_val`, and the dataset concatenator `concat`, together with
the parts of the surrounding library they use (the `TaskSet` data model,
the `TaskType` tag, numpy `bincount`, and the external fixed-seed
shuffle and weighted-sampler primitives).

Machine reals of the source (numpy float64) are modelled as `ℝ`; note
that in Lean division by zero yields `0` where IEEE arithmetic yields
`inf`/`NaN`.  Fractions (`val_split`) are modelled as `ℚ`.
-/

/-- Modelled from the spec: the data-type tag enumeration of
`continuum.tasks.base.TaskType` (not under `src/`); the spec describes it
as a closed tagged-variant enumeration {classification-like tags,
segmentation, object-detection, text}.  The classification-like tags are
`image_array`, `image_path`, `tensor`, `h5`. -/
inductive TaskType where
  | image_array
  | image_path
  | tensor
  | h5
  | segmentation
  | obj_detection
  | text
deriving DecidableEq, Repr

/-- Modelled from the spec: the labeled-dataset abstraction
(`continuum.tasks.task_set.TaskSet`, not under `src/`): three aligned
ordered sequences (feature records `x`, integer class labels `y`, task
identifiers `t`), a transformation pipeline `trsf` carried through
unchanged, and a declared data-type tag. -/
structure TaskSet (α τ : Type) where
  x : List α
  y : List ℕ
  t : List ℤ
  trsf : τ
  data_type : TaskType
deriving DecidableEq

/-- `len(taskset)`: the number of samples (the aligned sequences share
this length; the label sequence is its canonical carrier). -/
def TaskSet.length {α τ : Type} (d : TaskSet α τ) : ℕ := d.y.length

/-- Modelled from the spec: the raw sample accessor
`BaseTaskSet.get_raw_samples` (not under `src/`) filtered by an index
subset: returns the three sequences at the given indices, in index order. -/
def TaskSet.get_raw_samples {α τ : Type} [Inhabited α] (d : TaskSet α τ)
    (idxs : List ℕ) : List α × List ℕ × List ℤ :=
  (idxs.map fun i => d.x.getD i default,
   idxs.map fun i => d.y.getD i 0,
   idxs.map fun i => d.t.getD i 0)

/-- Length of the array `np.bincount(y)` returns: `max(y) + 1` for
non-empty `y`, `0` for empty `y`. -/
def bincountLen (y : List ℕ) : ℕ :=
  if y.isEmpty then 0 else y.foldr max 0 + 1

/-- `nb_per_class = np.bincount(y)`: entry `c` is the number of
occurrences of label `c` in `y`, for `c` in `[0, max(y)]`. -/
def nb_per_class (y : List ℕ) : List ℕ :=
  (List.range (bincountLen y)).map fun c => y.count c

/-- `weights_per_class = 1 / nb_per_class` (non-log mode).  A class with
count `0` (a gap in the label range) gets `(0 : ℝ)⁻¹ = 0` here where
numpy produces `inf`; such entries are never looked up by a sample. -/
noncomputable def weights_per_class (y : List ℕ) : List ℝ :=
  (nb_per_class y).map fun (n : ℕ) => ((n : ℝ))⁻¹

/-- `np.log(weights_per_class)`: the per-class log weights before
rescaling. -/
noncomputable def log_weights_raw (y : List ℕ) : List ℝ :=
  (weights_per_class y).map Real.log

/-- `np.sum(np.log(weights_per_class))`: the divisor of the log-mode
rescaling. -/
noncomputable def log_weights_sum (y : List ℕ) : ℝ :=
  (log_weights_raw y).sum

/-- `1 - (log weights / sum of log weights)`: the rescaled log-mode
per-class weights. -/
noncomputable def weights_per_class_log (y : List ℕ) : List ℝ :=
  (log_weights_raw y).map fun w => 1 - w / log_weights_sum y

/-- `weights = weights_per_class[y]`: one weight per sample, in dataset
order, looked up by the sample's label; `lg` selects log mode. -/
noncomputable def sample_weights (y : List ℕ) (lg : Bool) : List ℝ :=
  y.map fun c =>
    (if lg then weights_per_class_log y else weights_per_class y).getD c 0

/-- Modelled from the spec: the external weighted-random-draw
primitive `torch.utils.data.sampler.WeightedRandomSampler(weights, n)`,
kept as the pair of its construction arguments. -/
structure WeightedRandomSampler where
  weights : List ℝ
  num_samples : ℕ

/-- The unsupported-data-type error `get_balanced_sampler` raises
(`NotImplementedError`, naming the offending data type). -/
inductive SamplerError where
  | unsupported_data_type (t : TaskType)
deriving DecidableEq

/-- `get_balanced_sampler(taskset, log)`: refuse segmentation,
object-detection and text datasets; otherwise build the per-sample
weight vector and wrap it in a sampler drawing `len(taskset)` indices. -/
noncomputable def get_balanced_sampler {α τ : Type} (ts : TaskSet α τ) (lg : Bool) :
    Except SamplerError WeightedRandomSampler :=
  if ts.data_type ∈ [TaskType.segmentation, TaskType.obj_detection, TaskType.text] then
    .error (.unsupported_data_type ts.data_type)
  else
    .ok ⟨sample_weights ts.y lg, ts.length⟩

/-- A linear congruential generator step; the pseudo-random word stream
driving the modelled shuffle. -/
def lcg (s : ℕ) : ℕ := (1103515245 * s + 12345) % 2147483648

/-- One random-extraction pass of the modelled shuffle: with fuel `n`,
pick the element at a pseudo-random position, emit it, recurse on the
rest. -/
def drawShuffleAux : ℕ → ℕ → List ℕ → List ℕ
  | 0, _, _ => []
  | n + 1, s, l =>
    l.getD (lcg s % l.length) 0 ::
      drawShuffleAux n (lcg s) (l.erase (l.getD (lcg s % l.length) 0))

/-- Modelled from the spec: `np.random.RandomState(seed).shuffle` applied
to `np.arange(n)` — an external "fixed-seed deterministic shuffle
primitive supplied by an external numerical library".  Modelled as a
seed-determined pseudo-random permutation of `[0, n)` (random extraction
driven by `lcg`); the claims depend only on it being a deterministic
permutation of the index range. -/
def npShuffle (seed n : ℕ) : List ℕ :=
  drawShuffleAux n (lcg seed) (List.range n)

/-- `int(val_split * len(indexes))`: the validation size.  For
`val_split ∈ [0, 1)` Python's truncation agrees with the floor. -/
def val_size (n : ℕ) (val_split : ℚ) : ℕ :=
  (Int.floor (val_split * (n : ℚ))).toNat

/-- `indexes[int(val_split * len(indexes)):]`: the training indices. -/
def trainIndexes {α τ : Type} (d : TaskSet α τ) (val_split : ℚ) : List ℕ :=
  (npShuffle 1 d.length).drop (val_size d.length val_split)

/-- `indexes[:int(val_split * len(indexes))]`: the validation indices. -/
def valIndexes {α τ : Type} (d : TaskSet α τ) (val_split : ℚ) : List ℕ :=
  (npShuffle 1 d.length).take (val_size d.length val_split)

/-- `split_train_val(dataset, val_split)`: shuffle the index range with
the fixed seed 1, cut at `int(val_split * N)`, and build the train and
validation datasets from the raw samples at those indices, carrying the
input's `trsf` and `data_type`. -/
def split_train_val {α τ : Type} [Inhabited α] (d : TaskSet α τ)
    (val_split : ℚ) : TaskSet α τ × TaskSet α τ :=
  let tr := d.get_raw_samples (trainIndexes d val_split)
  let va := d.get_raw_samples (valIndexes d val_split)
  (⟨tr.1, tr.2.1, tr.2.2, d.trsf, d.data_type⟩,
   ⟨va.1, va.2.1, va.2.2, d.trsf, d.data_type⟩)

/-- The errors `concat` can surface: the type-mismatch `Exception`
(carrying the offending and the expected tag, as the f-string message
does), and the `IndexError` Python raises at `task_sets[0]` on an empty
list. -/
inductive ConcatError where
  | invalid_data_type (got expected : TaskType)
  | empty_input
deriving DecidableEq

/-- The type check of `concat`'s loop: walk the list in order and fail at
the first dataset whose tag differs from the expected one. -/
def concatCheck {α τ : Type} (expected : TaskType) :
    List (TaskSet α τ) → Except ConcatError Unit
  | [] => .ok ()
  | ts :: rest =>
    if ts.data_type = expected then concatCheck expected rest
    else .error (.invalid_data_type ts.data_type expected)

/-- `concat(task_sets)`: check every dataset's tag against the first
dataset's, then concatenate the three aligned sequences across all
inputs in list order, adopting the first dataset's `trsf` and tag. -/
def concat {α τ : Type} (tss : List (TaskSet α τ)) :
    Except ConcatError (TaskSet α τ) :=
  match tss with
  | [] => .error .empty_input
  | h0 :: _ =>
    match concatCheck h0.data_type tss with
    | .error e => .error e
    | .ok _ =>
      .ok ⟨(tss.map TaskSet.x).flatten, (tss.map TaskSet.y).flatten,
           (tss.map TaskSet.t).flatten, h0.trsf, h0.data_type⟩

/-! ## Helper lemmas -/

theorem getD_map_lt {β γ : Type} (f : β → γ) (l : List β) (d : γ) (e : β) {i : ℕ}
    (hi : i < l.length) :
    (l.map f).getD i d = f (l.getD i e) := by
  rw [List.getD_eq_getElem _ _ (by simpa using hi), List.getElem_map,
    List.getD_eq_getElem _ _ hi]

theorem getD_lt_mem {β : Type} (l : List β) (d : β) {i : ℕ} (hi : i < l.length) :
    l.getD i d ∈ l := by
  rw [List.getD_eq_getElem _ _ hi]
  exact l.getElem_mem hi

theorem drawShuffleAux_perm :
    ∀ (n s : ℕ) (l : List ℕ), l.length = n → (drawShuffleAux n s l).Perm l := by
  intro n
  induction n with
  | zero =>
    intro s l hl
    have : l = [] := List.length_eq_zero.mp hl
    simp [this, drawShuffleAux]
  | succ m ih =>
    intro s l hl
    have hpos : 0 < l.length := by omega
    have hk : lcg s % l.length < l.length := Nat.mod_lt _ hpos
    have hmem : l.getD (lcg s % l.length) 0 ∈ l := getD_lt_mem l 0 hk
    have hlen : (l.erase (l.getD (lcg s % l.length) 0)).length = m := by
      rw [List.length_erase_of_mem hmem]; omega
    have htail := ih (lcg s) _ hlen
    exact (htail.cons _).trans (List.perm_cons_erase hmem).symm

theorem npShuffle_perm (seed n : ℕ) : (npShuffle seed n).Perm (List.range n) :=
  drawShuffleAux_perm n (lcg seed) (List.range n) (List.length_range n)

theorem npShuffle_nodup (seed n : ℕ) : (npShuffle seed n).Nodup :=
  ((npShuffle_perm seed n).nodup_iff).mpr (List.nodup_range n)

theorem npShuffle_length (seed n : ℕ) : (npShuffle seed n).length = n := by
  rw [(npShuffle_perm seed n).length_eq, List.length_range]

theorem le_foldr_max (y : List ℕ) (c : ℕ) (hc : c ∈ y) : c ≤ y.foldr max 0 := by
  induction y with
  | nil => cases hc
  | cons a t ih =>
    rcases List.mem_cons.mp hc with h | h
    · subst h; exact le_max_left _ _
    · exact le_trans (ih h) (le_max_right _ _)

theorem mem_lt_bincountLen {y : List ℕ} {c : ℕ} (hc : c ∈ y) : c < bincountLen y := by
  have hne : y.isEmpty = false := by
    cases y with
    | nil => cases hc
    | cons a t => rfl
  unfold bincountLen
  rw [hne]
  simp only [Bool.false_eq_true, if_false]
  exact Nat.lt_succ_of_le (le_foldr_max y c hc)

theorem nb_per_class_length (y : List ℕ) : (nb_per_class y).length = bincountLen y := by
  rw [nb_per_class, List.length_map, List.length_range]

theorem nb_per_class_getD {y : List ℕ} {c : ℕ} (hc : c < bincountLen y) :
    (nb_per_class y).getD c 0 = y.count c := by
  unfold nb_per_class
  rw [getD_map_lt _ _ _ 0 (by rw [List.length_range]; exact hc)]
  congr 1
  rw [List.getD_eq_getElem _ _ (by rw [List.length_range]; exact hc),
    List.getElem_range]

theorem weights_per_class_length (y : List ℕ) :
    (weights_per_class y).length = bincountLen y := by
  rw [weights_per_class, List.length_map, nb_per_class_length]

theorem weights_per_class_getD {y : List ℕ} {c : ℕ} (hc : c < bincountLen y) :
    (weights_per_class y).getD c 0 = ((y.count c : ℝ))⁻¹ := by
  unfold weights_per_class
  rw [getD_map_lt _ _ _ 0 (by rw [nb_per_class_length]; exact hc),
    nb_per_class_getD hc]

theorem log_weights_raw_length (y : List ℕ) :
    (log_weights_raw y).length = bincountLen y := by
  rw [log_weights_raw, List.length_map, weights_per_class_length]

theorem log_weights_raw_getD {y : List ℕ} {c : ℕ} (hc : c < bincountLen y) :
    (log_weights_raw y).getD c 0 = Real.log ((y.count c : ℝ))⁻¹ := by
  unfold log_weights_raw
  rw [getD_map_lt _ _ _ 0 (by rw [weights_per_class_length]; exact hc),
    weights_per_class_getD hc]

theorem weights_per_class_log_getD {y : List ℕ} {c : ℕ} (hc : c < bincountLen y) :
    (weights_per_class_log y).getD c 0 =
      1 - Real.log ((y.count c : ℝ))⁻¹ / log_weights_sum y := by
  unfold weights_per_class_log
  rw [getD_map_lt _ _ _ 0 (by rw [log_weights_raw_length]; exact hc),
    log_weights_raw_getD hc]

theorem sample_weights_getD {y : List ℕ} (lg : Bool) {i : ℕ} (hi : i < y.length) :
    (sample_weights y lg).getD i 0 =
      (if lg then weights_per_class_log y else weights_per_class y).getD
        (y.getD i 0) 0 := by
  unfold sample_weights
  rw [getD_map_lt _ _ _ 0 hi]

theorem sample_weights_length (y : List ℕ) (lg : Bool) :
    (sample_weights y lg).length = y.length := by
  rw [sample_weights, List.length_map]

theorem list_sum_nonpos {l : List ℝ} (h : ∀ x ∈ l, x ≤ 0) : l.sum ≤ 0 := by
  induction l with
  | nil => simp
  | cons a t ih =>
    have ha := h a (List.mem_cons_self a t)
    have ht := ih fun x hx => h x (List.mem_cons_of_mem a hx)
    rw [List.sum_cons]
    linarith

theorem list_sum_le_of_mem {l : List ℝ} (h : ∀ x ∈ l, x ≤ 0) {a : ℝ} (ha : a ∈ l) :
    l.sum ≤ a := by
  induction l with
  | nil => cases ha
  | cons b t ih =>
    have hb0 : b ≤ 0 := h b (List.mem_cons_self b t)
    rcases List.mem_cons.mp ha with hb | ht
    · subst hb
      have ht0 : t.sum ≤ 0 :=
        list_sum_nonpos fun x hx => h x (List.mem_cons_of_mem a hx)
      rw [List.sum_cons]
      linarith
    · have := ih (fun x hx => h x (List.mem_cons_of_mem b hx)) ht
      rw [List.sum_cons]
      linarith

theorem val_size_le {n : ℕ} {v : ℚ} (h0 : 0 ≤ v) (h1 : v < 1) : val_size n v ≤ n := by
  unfold val_size
  have hle : v * (n : ℚ) ≤ (n : ℚ) := by
    calc v * (n : ℚ) ≤ 1 * (n : ℚ) :=
          mul_le_mul_of_nonneg_right (le_of_lt h1) (by positivity)
      _ = (n : ℚ) := one_mul _
  have hfl : Int.floor (v * (n : ℚ)) ≤ (n : ℤ) := by
    calc Int.floor (v * (n : ℚ)) ≤ Int.floor ((n : ℚ)) := Int.floor_le_floor hle
      _ = (n : ℤ) := Int.floor_natCast _
  exact Int.toNat_le.mpr hfl

theorem valIndexes_length {α τ : Type} (d : TaskSet α τ) {v : ℚ}
    (h0 : 0 ≤ v) (h1 : v < 1) :
    (valIndexes d v).length = val_size d.length v := by
  rw [valIndexes, List.length_take, npShuffle_length]
  exact min_eq_left (val_size_le h0 h1)

theorem trainIndexes_length {α τ : Type} (d : TaskSet α τ) (v : ℚ) :
    (trainIndexes d v).length = d.length - val_size d.length v := by
  rw [trainIndexes, List.length_drop, npShuffle_length]

theorem split_snd_length {α τ : Type} [Inhabited α] (d : TaskSet α τ) (v : ℚ) :
    (split_train_val d v).2.length = (valIndexes d v).length := by
  simp [split_train_val, TaskSet.length, TaskSet.get_raw_samples]

theorem split_fst_length {α τ : Type} [Inhabited α] (d : TaskSet α τ) (v : ℚ) :
    (split_train_val d v).1.length = (trainIndexes d v).length := by
  simp [split_train_val, TaskSet.length, TaskSet.get_raw_samples]

/-- C1: for every dataset of length `N` and every `val_split ∈ [0, 1)`,
`split_train_val` cuts the seed-1 shuffled index range into disjoint
validation and training index lists whose union (as a set) is `[0, N)`;
the validation set is exactly the first `⌊val_split * N⌋` shuffled
indices and has that many elements, the training set the remaining
`N - ⌊val_split * N⌋`. -/
theorem split_train_val_partition {α τ : Type} [Inhabited α] (d : TaskSet α τ)
    (v : ℚ) (h0 : 0 ≤ v) (h1 : v < 1) :
    List.Disjoint (valIndexes d v) (trainIndexes d v) ∧
    (valIndexes d v ++ trainIndexes d v).Perm (List.range d.length) ∧
    valIndexes d v =
      (npShuffle 1 d.length).take (Int.floor (v * (d.length : ℚ))).toNat ∧
    (split_train_val d v).2.length = (Int.floor (v * (d.length : ℚ))).toNat ∧
    (split_train_val d v).1.length =
      d.length - (Int.floor (v * (d.length : ℚ))).toNat := by
  refine ⟨?_, ?_, rfl, ?_, ?_⟩
  · exact List.disjoint_take_drop (npShuffle_nodup 1 d.length) (le_refl _)
  · rw [valIndexes, trainIndexes, List.take_append_drop]
    exact npShuffle_perm 1 d.length
  · rw [split_snd_length, valIndexes_length d h0 h1, val_size]
  · rw [split_fst_length, trainIndexes_length, val_size]

/-- C1 witness: a concrete dataset of length 4 with `val_split = 1/4`. -/
theorem split_train_val_partition_witness :
    ((0 : ℚ) ≤ 1/4 ∧ (1/4 : ℚ) < 1) ∧
    (List.Disjoint
        (valIndexes (⟨[10, 11, 12, 13], [0, 0, 0, 1], [0, 0, 0, 0], 0,
          TaskType.image_array⟩ : TaskSet ℕ ℕ) (1/4))
        (trainIndexes (⟨[10, 11, 12, 13], [0, 0, 0, 1], [0, 0, 0, 0], 0,
          TaskType.image_array⟩ : TaskSet ℕ ℕ) (1/4)) ∧
      (valIndexes (⟨[10, 11, 12, 13], [0, 0, 0, 1], [0, 0, 0, 0], 0,
          TaskType.image_array⟩ : TaskSet ℕ ℕ) (1/4) ++
        trainIndexes (⟨[10, 11, 12, 13], [0, 0, 0, 1], [0, 0, 0, 0], 0,
          TaskType.image_array⟩ : TaskSet ℕ ℕ) (1/4)).Perm
        (List.range (⟨[10, 11, 12, 13], [0, 0, 0, 1], [0, 0, 0, 0], 0,
          TaskType.image_array⟩ : TaskSet ℕ ℕ).length) ∧
      valIndexes (⟨[10, 11, 12, 13], [0, 0, 0, 1], [0, 0, 0, 0], 0,
          TaskType.image_array⟩ : TaskSet ℕ ℕ) (1/4) =
        (npShuffle 1 (⟨[10, 11, 12, 13], [0, 0, 0, 1], [0, 0, 0, 0], 0,
          TaskType.image_array⟩ : TaskSet ℕ ℕ).length).take
          (Int.floor ((1/4 : ℚ) * ((⟨[10, 11, 12, 13], [0, 0, 0, 1], [0, 0, 0, 0], 0,
            TaskType.image_array⟩ : TaskSet ℕ ℕ).length : ℚ))).toNat ∧
      (split_train_val (⟨[10, 11, 12, 13], [0, 0, 0, 1], [0, 0, 0, 0], 0,
          TaskType.image_array⟩ : TaskSet ℕ ℕ) (1/4)).2.length =
        (Int.floor ((1/4 : ℚ) * ((⟨[10, 11, 12, 13], [0, 0, 0, 1], [0, 0, 0, 0], 0,
          TaskType.image_array⟩ : TaskSet ℕ ℕ).length : ℚ))).toNat ∧
      (split_train_val (⟨[10, 11, 12, 13], [0, 0, 0, 1], [0, 0, 0, 0], 0,
          TaskType.image_array⟩ : TaskSet ℕ ℕ) (1/4)).1.length =
        (⟨[10, 11, 12, 13], [0, 0, 0, 1], [0, 0, 0, 0], 0,
          TaskType.image_array⟩ : TaskSet ℕ ℕ).length -
          (Int.floor ((1/4 : ℚ) * ((⟨[10, 11, 12, 13], [0, 0, 0, 1], [0, 0, 0, 0], 0,
            TaskType.image_array⟩ : TaskSet ℕ ℕ).length : ℚ))).toNat) :=
  ⟨⟨by norm_num, by norm_num⟩,
    split_train_val_partition _ (1/4) (by norm_num) (by norm_num)⟩

/-- C7: `split_train_val` is deterministic — the index partition is a
function of the dataset length and `val_split` alone (the shuffle is
re-seeded with the fixed seed 1 on every call), so two calls on
same-length datasets use identical train and validation index
sequences. -/
theorem split_train_val_deterministic {α τ : Type} (d₁ d₂ : TaskSet α τ)
    (v : ℚ) (hlen : d₁.length = d₂.length) :
    trainIndexes d₁ v = trainIndexes d₂ v ∧
    valIndexes d₁ v = valIndexes d₂ v ∧
    trainIndexes d₁ v =
      (npShuffle 1 d₁.length).drop (val_size d₁.length v) := by
  unfold trainIndexes valIndexes
  rw [hlen]
  exact ⟨rfl, rfl, rfl⟩

/-- C7 witness: two distinct length-3 datasets with `val_split = 1/3`. -/
theorem split_train_val_deterministic_witness :
    ((⟨[1, 2, 3], [0, 1, 0], [0, 0, 0], 0, TaskType.image_array⟩ :
        TaskSet ℕ ℕ).length =
      (⟨[7, 8, 9], [1, 1, 1], [2, 2, 2], 5, TaskType.tensor⟩ :
        TaskSet ℕ ℕ).length) ∧
    (trainIndexes (⟨[1, 2, 3], [0, 1, 0], [0, 0, 0], 0,
          TaskType.image_array⟩ : TaskSet ℕ ℕ) (1/3) =
        trainIndexes (⟨[7, 8, 9], [1, 1, 1], [2, 2, 2], 5,
          TaskType.tensor⟩ : TaskSet ℕ ℕ) (1/3) ∧
      valIndexes (⟨[1, 2, 3], [0, 1, 0], [0, 0, 0], 0,
          TaskType.image_array⟩ : TaskSet ℕ ℕ) (1/3) =
        valIndexes (⟨[7, 8, 9], [1, 1, 1], [2, 2, 2], 5,
          TaskType.tensor⟩ : TaskSet ℕ ℕ) (1/3) ∧
      trainIndexes (⟨[1, 2, 3], [0, 1, 0], [0, 0, 0], 0,
          TaskType.image_array⟩ : TaskSet ℕ ℕ) (1/3) =
        (npShuffle 1 (⟨[1, 2, 3], [0, 1, 0], [0, 0, 0], 0,
          TaskType.image_array⟩ : TaskSet ℕ ℕ).length).drop
          (val_size (⟨[1, 2, 3], [0, 1, 0], [0, 0, 0], 0,
            TaskType.image_array⟩ : TaskSet ℕ ℕ).length (1/3))) :=
  ⟨rfl, split_train_val_deterministic _ _ (1/3) rfl⟩

/-- C9: with `val_split = 0` the validation index list (and hence the
validation dataset) is empty, and the training index list is the whole
seed-1 shuffled permutation of `[0, N)` — the full dataset as a set, in
shuffled order rather than original order. -/
theorem split_val_zero {α τ : Type} [Inhabited α] (d : TaskSet α τ) :
    valIndexes d 0 = [] ∧
    (split_train_val d 0).2.length = 0 ∧
    trainIndexes d 0 = npShuffle 1 d.length ∧
    (trainIndexes d 0).Perm (List.range d.length) := by
  have hv : val_size d.length 0 = 0 := by
    simp [val_size]
  refine ⟨?_, ?_, ?_, ?_⟩
  · rw [valIndexes, hv, List.take_zero]
  · rw [split_snd_length, valIndexes, hv, List.take_zero, List.length_nil]
  · rw [trainIndexes, hv, List.drop_zero]
  · rw [trainIndexes, hv, List.drop_zero]
    exact npShuffle_perm 1 d.length

theorem concatCheck_ok {α τ : Type} (e : TaskType) (l : List (TaskSet α τ))
    (h : ∀ ts ∈ l, ts.data_type = e) : concatCheck e l = .ok () := by
  induction l with
  | nil => rfl
  | cons a t ih =>
    rw [concatCheck, if_pos (h a (List.mem_cons_self a t))]
    exact ih fun ts hts => h ts (List.mem_cons_of_mem a hts)

/-- C2: concatenating datasets whose data-type tags all agree succeeds
and yields the dataset whose three sequences are the inputs' sequences
flattened in list order (each dataset's internal order preserved), with
length the sum of the input lengths. -/
theorem concat_of_same_type {α τ : Type} (tss : List (TaskSet α τ))
    (h0 : TaskSet α τ) (hne : tss.head? = some h0)
    (hall : ∀ ts ∈ tss, ts.data_type = h0.data_type) :
    concat tss = Except.ok
      (⟨(tss.map TaskSet.x).flatten, (tss.map TaskSet.y).flatten,
        (tss.map TaskSet.t).flatten, h0.trsf, h0.data_type⟩ : TaskSet α τ) ∧
    ((⟨(tss.map TaskSet.x).flatten, (tss.map TaskSet.y).flatten,
        (tss.map TaskSet.t).flatten, h0.trsf, h0.data_type⟩ :
        TaskSet α τ)).length = (tss.map TaskSet.length).sum := by
  constructor
  · cases tss with
    | nil => simp at hne
    | cons hd tl =>
      have hh : hd = h0 := by simpa using hne
      subst hh
      rw [concat, concatCheck_ok hd.data_type (hd :: tl) hall]
  · show ((tss.map TaskSet.y).flatten).length = (tss.map TaskSet.length).sum
    rw [List.length_flatten, List.map_map]
    rfl

/-- C2 witness: two concrete image-array datasets of lengths 2 and 1. -/
theorem concat_of_same_type_witness :
    (([⟨[1, 2], [0, 1], [0, 0], 0, TaskType.image_array⟩,
        ⟨[3], [2], [1], 5, TaskType.image_array⟩] :
        List (TaskSet ℕ ℕ)).head? =
      some ⟨[1, 2], [0, 1], [0, 0], 0, TaskType.image_array⟩ ∧
      ∀ ts ∈ ([⟨[1, 2], [0, 1], [0, 0], 0, TaskType.image_array⟩,
          ⟨[3], [2], [1], 5, TaskType.image_array⟩] : List (TaskSet ℕ ℕ)),
        ts.data_type =
          (⟨[1, 2], [0, 1], [0, 0], 0, TaskType.image_array⟩ :
            TaskSet ℕ ℕ).data_type) ∧
    (concat ([⟨[1, 2], [0, 1], [0, 0], 0, TaskType.image_array⟩,
        ⟨[3], [2], [1], 5, TaskType.image_array⟩] : List (TaskSet ℕ ℕ)) =
      Except.ok
        ⟨(([⟨[1, 2], [0, 1], [0, 0], 0, TaskType.image_array⟩,
            ⟨[3], [2], [1], 5, TaskType.image_array⟩] :
            List (TaskSet ℕ ℕ)).map TaskSet.x).flatten,
          (([⟨[1, 2], [0, 1], [0, 0], 0, TaskType.image_array⟩,
            ⟨[3], [2], [1], 5, TaskType.image_array⟩] :
            List (TaskSet ℕ ℕ)).map TaskSet.y).flatten,
          (([⟨[1, 2], [0, 1], [0, 0], 0, TaskType.image_array⟩,
            ⟨[3], [2], [1], 5, TaskType.image_array⟩] :
            List (TaskSet ℕ ℕ)).map TaskSet.t).flatten,
          (0 : ℕ), TaskType.image_array⟩ ∧
      (⟨(([⟨[1, 2], [0, 1], [0, 0], 0, TaskType.image_array⟩,
            ⟨[3], [2], [1], 5, TaskType.image_array⟩] :
            List (TaskSet ℕ ℕ)).map TaskSet.x).flatten,
          (([⟨[1, 2], [0, 1], [0, 0], 0, TaskType.image_array⟩,
            ⟨[3], [2], [1], 5, TaskType.image_array⟩] :
            List (TaskSet ℕ ℕ)).map TaskSet.y).flatten,
          (([⟨[1, 2], [0, 1], [0, 0], 0, TaskType.image_array⟩,
            ⟨[3], [2], [1], 5, TaskType.image_array⟩] :
            List (TaskSet ℕ ℕ)).map TaskSet.t).flatten,
          (0 : ℕ), TaskType.image_array⟩ : TaskSet ℕ ℕ).length =
        (([⟨[1, 2], [0, 1], [0, 0], 0, TaskType.image_array⟩,
          ⟨[3], [2], [1], 5, TaskType.image_array⟩] :
          List (TaskSet ℕ ℕ)).map TaskSet.length).sum) :=
  ⟨⟨rfl, by decide⟩,
    concat_of_same_type
      ([⟨[1, 2], [0, 1], [0, 0], 0, TaskType.image_array⟩,
        ⟨[3], [2], [1], 5, TaskType.image_array⟩] : List (TaskSet ℕ ℕ))
      ⟨[1, 2], [0, 1], [0, 0], 0, TaskType.image_array⟩ rfl (by decide)⟩

theorem concatCheck_mismatch {α τ : Type} (e : TaskType)
    (l : List (TaskSet α τ)) (hbad : ∃ ts ∈ l, ts.data_type ≠ e) :
    ∃ b, b ≠ e ∧ concatCheck e l = .error (.invalid_data_type b e) := by
  induction l with
  | nil =>
    rcases hbad with ⟨ts, hm, _⟩
    cases hm
  | cons a t ih =>
    by_cases ha : a.data_type = e
    · have hb : ∃ ts ∈ t, ts.data_type ≠ e := by
        rcases hbad with ⟨ts, hm, hne2⟩
        rcases List.mem_cons.mp hm with h | h
        · subst h; exact absurd ha hne2
        · exact ⟨ts, h, hne2⟩
      rcases ih hb with ⟨b, hbne, hch⟩
      refine ⟨b, hbne, ?_⟩
      rw [concatCheck, if_pos ha]
      exact hch
    · exact ⟨a.data_type, ha, by rw [concatCheck, if_neg ha]⟩

/-- C6: concatenating a list in which some dataset's tag differs from
the first dataset's tag fails with the type-mismatch error carrying both
the offending tag and the expected (first) tag, and produces no dataset. -/
theorem concat_type_mismatch {α τ : Type} (tss : List (TaskSet α τ))
    (h0 : TaskSet α τ) (hne : tss.head? = some h0)
    (hbad : ∃ ts ∈ tss, ts.data_type ≠ h0.data_type) :
    ∃ b, b ≠ h0.data_type ∧
      concat tss = .error (.invalid_data_type b h0.data_type) := by
  cases tss with
  | nil => simp at hne
  | cons hd tl =>
    have hh : hd = h0 := by simpa using hne
    subst hh
    rcases concatCheck_mismatch hd.data_type (hd :: tl) hbad with ⟨b, hbne, hch⟩
    refine ⟨b, hbne, ?_⟩
    rw [concat, hch]

/-- C6 witness: an image-array dataset followed by a segmentation one. -/
theorem concat_type_mismatch_witness :
    (([⟨[1], [0], [0], 0, TaskType.image_array⟩,
        ⟨[2], [0], [0], 0, TaskType.segmentation⟩] :
        List (TaskSet ℕ ℕ)).head? =
      some ⟨[1], [0], [0], 0, TaskType.image_array⟩ ∧
      ∃ ts ∈ ([⟨[1], [0], [0], 0, TaskType.image_array⟩,
          ⟨[2], [0], [0], 0, TaskType.segmentation⟩] : List (TaskSet ℕ ℕ)),
        ts.data_type ≠
          (⟨[1], [0], [0], 0, TaskType.image_array⟩ :
            TaskSet ℕ ℕ).data_type) ∧
    (∃ b, b ≠ (⟨[1], [0], [0], 0, TaskType.image_array⟩ :
        TaskSet ℕ ℕ).data_type ∧
      concat ([⟨[1], [0], [0], 0, TaskType.image_array⟩,
          ⟨[2], [0], [0], 0, TaskType.segmentation⟩] : List (TaskSet ℕ ℕ)) =
        .error (.invalid_data_type b
          (⟨[1], [0], [0], 0, TaskType.image_array⟩ :
            TaskSet ℕ ℕ).data_type)) :=
  ⟨⟨rfl, by decide⟩,
    concat_type_mismatch
      ([⟨[1], [0], [0], 0, TaskType.image_array⟩,
        ⟨[2], [0], [0], 0, TaskType.segmentation⟩] : List (TaskSet ℕ ℕ))
      ⟨[1], [0], [0], 0, TaskType.image_array⟩ rfl (by decide)⟩

/-- C8: both datasets returned by `split_train_val` carry the input's
transformation pipeline and data-type tag, and the dataset `concat`
returns carries the first list element's pipeline and tag. -/
theorem trsf_data_type_passthrough {α τ : Type} [Inhabited α]
    (d : TaskSet α τ) (v : ℚ) (tss : List (TaskSet α τ)) (h0 : TaskSet α τ)
    (r : TaskSet α τ) (hne : tss.head? = some h0)
    (hok : concat tss = .ok r) :
    (split_train_val d v).1.trsf = d.trsf ∧
    (split_train_val d v).1.data_type = d.data_type ∧
    (split_train_val d v).2.trsf = d.trsf ∧
    (split_train_val d v).2.data_type = d.data_type ∧
    r.trsf = h0.trsf ∧ r.data_type = h0.data_type := by
  refine ⟨rfl, rfl, rfl, rfl, ?_⟩
  cases tss with
  | nil => simp at hne
  | cons hd tl =>
    have hh : hd = h0 := by simpa using hne
    subst hh
    rw [concat] at hok
    cases hch : concatCheck hd.data_type (hd :: tl) with
    | error e => rw [hch] at hok; cases hok
    | ok u =>
      rw [hch] at hok
      cases hok
      exact ⟨rfl, rfl⟩

/-- C8 witness: a length-2 dataset split at `1/2`, and a two-element
concatenation. -/
theorem trsf_data_type_passthrough_witness :
    (([⟨[1], [0], [0], 3, TaskType.tensor⟩,
        ⟨[2], [1], [1], 4, TaskType.tensor⟩] :
        List (TaskSet ℕ ℕ)).head? =
        some ⟨[1], [0], [0], 3, TaskType.tensor⟩ ∧
      concat ([⟨[1], [0], [0], 3, TaskType.tensor⟩,
          ⟨[2], [1], [1], 4, TaskType.tensor⟩] : List (TaskSet ℕ ℕ)) =
        .ok ⟨[1, 2], [0, 1], [0, 1], 3, TaskType.tensor⟩) ∧
    ((split_train_val (⟨[5, 6], [0, 1], [0, 0], 7, TaskType.h5⟩ :
        TaskSet ℕ ℕ) (1/2)).1.trsf =
        (⟨[5, 6], [0, 1], [0, 0], 7, TaskType.h5⟩ : TaskSet ℕ ℕ).trsf ∧
      (split_train_val (⟨[5, 6], [0, 1], [0, 0], 7, TaskType.h5⟩ :
        TaskSet ℕ ℕ) (1/2)).1.data_type =
        (⟨[5, 6], [0, 1], [0, 0], 7, TaskType.h5⟩ : TaskSet ℕ ℕ).data_type ∧
      (split_train_val (⟨[5, 6], [0, 1], [0, 0], 7, TaskType.h5⟩ :
        TaskSet ℕ ℕ) (1/2)).2.trsf =
        (⟨[5, 6], [0, 1], [0, 0], 7, TaskType.h5⟩ : TaskSet ℕ ℕ).trsf ∧
      (split_train_val (⟨[5, 6], [0, 1], [0, 0], 7, TaskType.h5⟩ :
        TaskSet ℕ ℕ) (1/2)).2.data_type =
        (⟨[5, 6], [0, 1], [0, 0], 7, TaskType.h5⟩ : TaskSet ℕ ℕ).data_type ∧
      (⟨[1, 2], [0, 1], [0, 1], 3, TaskType.tensor⟩ : TaskSet ℕ ℕ).trsf =
        (⟨[1], [0], [0], 3, TaskType.tensor⟩ : TaskSet ℕ ℕ).trsf ∧
      (⟨[1, 2], [0, 1], [0, 1], 3, TaskType.tensor⟩ :
          TaskSet ℕ ℕ).data_type =
        (⟨[1], [0], [0], 3, TaskType.tensor⟩ : TaskSet ℕ ℕ).data_type) :=
  ⟨⟨rfl, rfl⟩,
    trsf_data_type_passthrough
      (⟨[5, 6], [0, 1], [0, 0], 7, TaskType.h5⟩ : TaskSet ℕ ℕ) (1/2)
      ([⟨[1], [0], [0], 3, TaskType.tensor⟩,
        ⟨[2], [1], [1], 4, TaskType.tensor⟩] : List (TaskSet ℕ ℕ))
      ⟨[1], [0], [0], 3, TaskType.tensor⟩
      ⟨[1, 2], [0, 1], [0, 1], 3, TaskType.tensor⟩ rfl rfl⟩

/-- C5: `get_balanced_sampler` fails with the unsupported-data-type
error exactly when the dataset's tag is segmentation, object-detection
or text; the check happens before any weight computation, and for every
other tag the function succeeds with the weight-backed sampler. -/
theorem get_balanced_sampler_type_check {α τ : Type} (ts : TaskSet α τ)
    (lg : Bool) :
    ((get_balanced_sampler ts lg =
        .error (.unsupported_data_type ts.data_type)) ↔
      (ts.data_type = TaskType.segmentation ∨
        ts.data_type = TaskType.obj_detection ∨
        ts.data_type = TaskType.text)) ∧
    (¬(ts.data_type = TaskType.segmentation ∨
        ts.data_type = TaskType.obj_detection ∨
        ts.data_type = TaskType.text) →
      get_balanced_sampler ts lg = .ok ⟨sample_weights ts.y lg, ts.length⟩) := by
  have hmem : ts.data_type ∈
      [TaskType.segmentation, TaskType.obj_detection, TaskType.text] ↔
      (ts.data_type = TaskType.segmentation ∨
        ts.data_type = TaskType.obj_detection ∨
        ts.data_type = TaskType.text) := by
    simp
  refine ⟨⟨?_, ?_⟩, ?_⟩
  · intro h
    by_contra hno
    rw [get_balanced_sampler, if_neg (fun hm => hno (hmem.mp hm))] at h
    cases h
  · intro h
    rw [get_balanced_sampler, if_pos (hmem.mpr h)]
  · intro h
    rw [get_balanced_sampler, if_neg (fun hm => h (hmem.mp hm))]

/-- C5 witness: the type check at a concrete tensor dataset. -/
theorem get_balanced_sampler_type_check_witness :
    ((get_balanced_sampler
        (⟨[1], [0], [0], 0, TaskType.tensor⟩ : TaskSet ℕ ℕ) false =
        .error (.unsupported_data_type
          (⟨[1], [0], [0], 0, TaskType.tensor⟩ : TaskSet ℕ ℕ).data_type)) ↔
      ((⟨[1], [0], [0], 0, TaskType.tensor⟩ : TaskSet ℕ ℕ).data_type =
          TaskType.segmentation ∨
        (⟨[1], [0], [0], 0, TaskType.tensor⟩ : TaskSet ℕ ℕ).data_type =
          TaskType.obj_detection ∨
        (⟨[1], [0], [0], 0, TaskType.tensor⟩ : TaskSet ℕ ℕ).data_type =
          TaskType.text)) ∧
    (¬((⟨[1], [0], [0], 0, TaskType.tensor⟩ : TaskSet ℕ ℕ).data_type =
          TaskType.segmentation ∨
        (⟨[1], [0], [0], 0, TaskType.tensor⟩ : TaskSet ℕ ℕ).data_type =
          TaskType.obj_detection ∨
        (⟨[1], [0], [0], 0, TaskType.tensor⟩ : TaskSet ℕ ℕ).data_type =
          TaskType.text) →
      get_balanced_sampler
          (⟨[1], [0], [0], 0, TaskType.tensor⟩ : TaskSet ℕ ℕ) false =
        .ok ⟨sample_weights
            (⟨[1], [0], [0], 0, TaskType.tensor⟩ : TaskSet ℕ ℕ).y false,
          (⟨[1], [0], [0], 0, TaskType.tensor⟩ : TaskSet ℕ ℕ).length⟩) :=
  get_balanced_sampler_type_check
    (⟨[1], [0], [0], 0, TaskType.tensor⟩ : TaskSet ℕ ℕ) false

/-- C3: in non-log mode, on a supported dataset, the weight vector has
one entry per sample in dataset order; sample `i`'s weight is
`1 / count(label i)`, so two samples of the same class share a weight
and a sample of a strictly rarer class gets a strictly larger weight. -/
theorem balanced_sampler_nonlog {α τ : Type} (ts : TaskSet α τ)
    (hsupp : ts.data_type ∉
      [TaskType.segmentation, TaskType.obj_detection, TaskType.text])
    (i j : ℕ) (hi : i < ts.length) (hj : j < ts.length) :
    get_balanced_sampler ts false = .ok ⟨sample_weights ts.y false, ts.length⟩ ∧
    (sample_weights ts.y false).length = ts.length ∧
    (sample_weights ts.y false).getD i 0 =
      ((ts.y.count (ts.y.getD i 0) : ℝ))⁻¹ ∧
    (ts.y.getD i 0 = ts.y.getD j 0 →
      (sample_weights ts.y false).getD i 0 =
        (sample_weights ts.y false).getD j 0) ∧
    (ts.y.count (ts.y.getD i 0) < ts.y.count (ts.y.getD j 0) →
      (sample_weights ts.y false).getD j 0 <
        (sample_weights ts.y false).getD i 0) := by
  have hmemi : ts.y.getD i 0 ∈ ts.y := getD_lt_mem _ _ hi
  have hmemj : ts.y.getD j 0 ∈ ts.y := getD_lt_mem _ _ hj
  have hwi : (sample_weights ts.y false).getD i 0 =
      ((ts.y.count (ts.y.getD i 0) : ℝ))⁻¹ := by
    rw [sample_weights_getD false hi, if_neg Bool.false_ne_true]
    exact weights_per_class_getD (mem_lt_bincountLen hmemi)
  have hwj : (sample_weights ts.y false).getD j 0 =
      ((ts.y.count (ts.y.getD j 0) : ℝ))⁻¹ := by
    rw [sample_weights_getD false hj, if_neg Bool.false_ne_true]
    exact weights_per_class_getD (mem_lt_bincountLen hmemj)
  refine ⟨?_, sample_weights_length ts.y false, hwi, ?_, ?_⟩
  · rw [get_balanced_sampler, if_neg hsupp]
  · intro hsame
    rw [hwi, hwj, hsame]
  · intro hlt
    rw [hwi, hwj]
    have hpos : (0 : ℝ) < (ts.y.count (ts.y.getD i 0) : ℝ) :=
      Nat.cast_pos.mpr (List.count_pos_iff.mpr hmemi)
    exact inv_strictAnti₀ hpos (Nat.cast_lt.mpr hlt)

/-- C3 witness: labels `[0, 0, 0, 1]` (the spec's own example), with
sample 3 of the rare class 1 and sample 0 of the common class 0. -/
theorem balanced_sampler_nonlog_witness :
    ((⟨[9, 9, 9, 9], [0, 0, 0, 1], [0, 0, 0, 0], 0, TaskType.image_array⟩ :
        TaskSet ℕ ℕ).data_type ∉
      [TaskType.segmentation, TaskType.obj_detection, TaskType.text] ∧
      (3 : ℕ) <
        (⟨[9, 9, 9, 9], [0, 0, 0, 1], [0, 0, 0, 0], 0,
          TaskType.image_array⟩ : TaskSet ℕ ℕ).length ∧
      (0 : ℕ) <
        (⟨[9, 9, 9, 9], [0, 0, 0, 1], [0, 0, 0, 0], 0,
          TaskType.image_array⟩ : TaskSet ℕ ℕ).length) ∧
    (get_balanced_sampler
        (⟨[9, 9, 9, 9], [0, 0, 0, 1], [0, 0, 0, 0], 0,
          TaskType.image_array⟩ : TaskSet ℕ ℕ) false =
      .ok ⟨sample_weights [0, 0, 0, 1] false, 4⟩ ∧
      (sample_weights [0, 0, 0, 1] false).length = 4 ∧
      (sample_weights [0, 0, 0, 1] false).getD 3 0 =
        ((List.count (([0, 0, 0, 1] : List ℕ).getD 3 0) [0, 0, 0, 1] : ℝ))⁻¹ ∧
      (([0, 0, 0, 1] : List ℕ).getD 3 0 = ([0, 0, 0, 1] : List ℕ).getD 0 0 →
        (sample_weights [0, 0, 0, 1] false).getD 3 0 =
          (sample_weights [0, 0, 0, 1] false).getD 0 0) ∧
      (List.count (([0, 0, 0, 1] : List ℕ).getD 3 0) [0, 0, 0, 1] <
          List.count (([0, 0, 0, 1] : List ℕ).getD 0 0) [0, 0, 0, 1] →
        (sample_weights [0, 0, 0, 1] false).getD 0 0 <
          (sample_weights [0, 0, 0, 1] false).getD 3 0)) :=
  ⟨⟨by decide, by decide, by decide⟩,
    balanced_sampler_nonlog
      (⟨[9, 9, 9, 9], [0, 0, 0, 1], [0, 0, 0, 0], 0, TaskType.image_array⟩ :
        TaskSet ℕ ℕ)
      (by decide) 3 0 (by decide) (by decide)⟩

/-- C4 counterexample: for labels `[0, 0, 1, 1, 2]` — class counts
`(2, 2, 1)`, so two classes of unequal counts — the log-mode weight
vector coincides with the non-log weight vector
(`[1/2, 1/2, 1/2, 1/2, 1]` in both modes), refuting the claim that the
two vectors must differ. -/
theorem log_weights_differ_counterexample :
    sample_weights [0, 0, 1, 1, 2] true =
      sample_weights [0, 0, 1, 1, 2] false := by
  have hlog2 : Real.log 2 ≠ 0 := ne_of_gt (Real.log_pos (by norm_num))
  have h1 : nb_per_class [0, 0, 1, 1, 2] = [2, 2, 1] := by decide
  have h2 : weights_per_class [0, 0, 1, 1, 2] =
      [(2 : ℝ)⁻¹, (2 : ℝ)⁻¹, 1] := by
    rw [weights_per_class, h1]
    norm_num
  have h3 : log_weights_raw [0, 0, 1, 1, 2] =
      [-Real.log 2, -Real.log 2, 0] := by
    rw [log_weights_raw, h2]
    simp [Real.log_inv]
  have h4 : log_weights_sum [0, 0, 1, 1, 2] = -(2 * Real.log 2) := by
    rw [log_weights_sum, h3]
    simp
    ring
  have hhalf : 1 - -Real.log 2 / -(2 * Real.log 2) = (2 : ℝ)⁻¹ := by
    rw [neg_div_neg_eq]
    field_simp
    ring
  have h5 : weights_per_class_log [0, 0, 1, 1, 2] =
      [(2 : ℝ)⁻¹, (2 : ℝ)⁻¹, 1] := by
    rw [weights_per_class_log, h3, h4]
    simp only [List.map_cons, List.map_nil]
    rw [hhalf]
    norm_num
  simp [sample_weights, h5, h2]

theorem nat_log_nonneg (n : ℕ) : 0 ≤ Real.log (n : ℝ) := by
  cases n with
  | zero => simp
  | succ m =>
    apply Real.log_nonneg
    exact_mod_cast Nat.succ_le_succ (Nat.zero_le m)

theorem log_weights_raw_nonpos (y : List ℕ) :
    ∀ x ∈ log_weights_raw y, x ≤ 0 := by
  intro x hx
  rw [log_weights_raw, List.mem_map] at hx
  rcases hx with ⟨w, hw, rfl⟩
  rw [weights_per_class, List.mem_map] at hw
  rcases hw with ⟨n, hn, rfl⟩
  rw [Real.log_inv]
  linarith [nat_log_nonneg n]

/-- C4 amended: in log mode the relative ordering is preserved — a
sample of a strictly rarer class gets a weight at least as large as a
sample of a more common class — but the log-mode vector need not differ
from the non-log vector (see the counterexample with counts `(2, 2, 1)`). -/
theorem log_weights_order_preserved {α τ : Type} (ts : TaskSet α τ)
    (i j : ℕ) (hi : i < ts.length) (hj : j < ts.length)
    (hlt : ts.y.count (ts.y.getD i 0) < ts.y.count (ts.y.getD j 0)) :
    (sample_weights ts.y true).getD j 0 ≤
      (sample_weights ts.y true).getD i 0 := by
  have hmemi : ts.y.getD i 0 ∈ ts.y := getD_lt_mem _ _ hi
  have hmemj : ts.y.getD j 0 ∈ ts.y := getD_lt_mem _ _ hj
  have hci1 : 0 < ts.y.count (ts.y.getD i 0) := List.count_pos_iff.mpr hmemi
  have hcj2 : 2 ≤ ts.y.count (ts.y.getD j 0) := by omega
  have hcipos : (0 : ℝ) < (ts.y.count (ts.y.getD i 0) : ℝ) := by
    exact_mod_cast hci1
  have hcjpos : (0 : ℝ) < (ts.y.count (ts.y.getD j 0) : ℝ) := by
    have : 0 < ts.y.count (ts.y.getD j 0) := by omega
    exact_mod_cast this
  have hjlt : ts.y.getD j 0 < bincountLen ts.y := mem_lt_bincountLen hmemj
  have hentry : Real.log ((ts.y.count (ts.y.getD j 0) : ℝ))⁻¹ ∈
      log_weights_raw ts.y := by
    have hlen : ts.y.getD j 0 < (log_weights_raw ts.y).length := by
      rw [log_weights_raw_length]; exact hjlt
    rw [← log_weights_raw_getD hjlt]
    exact getD_lt_mem _ _ hlen
  have hS_le : log_weights_sum ts.y ≤
      Real.log ((ts.y.count (ts.y.getD j 0) : ℝ))⁻¹ :=
    list_sum_le_of_mem (log_weights_raw_nonpos ts.y) hentry
  have hSneg : log_weights_sum ts.y < 0 := by
    have h2pos : (0 : ℝ) < Real.log 2 := Real.log_pos (by norm_num)
    have hlogcj : Real.log 2 ≤ Real.log ((ts.y.count (ts.y.getD j 0) : ℝ)) := by
      rw [Real.log_le_log_iff (by norm_num) hcjpos]
      exact_mod_cast hcj2
    rw [Real.log_inv] at hS_le
    linarith
  have hwi : (sample_weights ts.y true).getD i 0 =
      1 - Real.log ((ts.y.count (ts.y.getD i 0) : ℝ))⁻¹ /
        log_weights_sum ts.y := by
    rw [sample_weights_getD true hi, if_pos rfl]
    exact weights_per_class_log_getD (mem_lt_bincountLen hmemi)
  have hwj : (sample_weights ts.y true).getD j 0 =
      1 - Real.log ((ts.y.count (ts.y.getD j 0) : ℝ))⁻¹ /
        log_weights_sum ts.y := by
    rw [sample_weights_getD true hj, if_pos rfl]
    exact weights_per_class_log_getD (mem_lt_bincountLen hmemj)
  have hlogle : Real.log ((ts.y.count (ts.y.getD j 0) : ℝ))⁻¹ ≤
      Real.log ((ts.y.count (ts.y.getD i 0) : ℝ))⁻¹ := by
    rw [Real.log_inv, Real.log_inv]
    have : Real.log ((ts.y.count (ts.y.getD i 0) : ℝ)) ≤
        Real.log ((ts.y.count (ts.y.getD j 0) : ℝ)) := by
      rw [Real.log_le_log_iff hcipos hcjpos]
      exact_mod_cast le_of_lt hlt
    linarith
  have hdiv := (div_le_div_right_of_neg hSneg).mpr hlogle
  rw [hwi, hwj]
  linarith

/-- C4 amended witness: labels `[0, 1, 1]`, sample 0 of the rare class
0 (count 1) against sample 1 of the common class 1 (count 2). -/
theorem log_weights_order_preserved_witness :
    ((0 : ℕ) < (⟨[1, 2, 3], [0, 1, 1], [0, 0, 0], 0,
        TaskType.image_array⟩ : TaskSet ℕ ℕ).length ∧
      (1 : ℕ) < (⟨[1, 2, 3], [0, 1, 1], [0, 0, 0], 0,
        TaskType.image_array⟩ : TaskSet ℕ ℕ).length ∧
      List.count (([0, 1, 1] : List ℕ).getD 0 0) [0, 1, 1] <
        List.count (([0, 1, 1] : List ℕ).getD 1 0) [0, 1, 1]) ∧
    (sample_weights [0, 1, 1] true).getD 1 0 ≤
      (sample_weights [0, 1, 1] true).getD 0 0 :=
  ⟨⟨by decide, by decide, by decide⟩,
    log_weights_order_preserved
      (⟨[1, 2, 3], [0, 1, 1], [0, 0, 0], 0, TaskType.image_array⟩ :
        TaskSet ℕ ℕ)
      0 1 (by decide) (by decide) (by decide)⟩

/-- C10: when every class label occurs exactly once (all bincount
entries equal 1) the divisor of the log-mode rescaling — the sum of the
per-class log weights — is exactly `0`, yet `get_balanced_sampler`
still returns a sampler instead of raising: the division by this zero
sum is what yields NaN weights under IEEE float semantics (here, total
real division maps it to `1 - w / 0`). -/
theorem log_singleton_classes {α τ : Type} (ts : TaskSet α τ)
    (hsupp : ts.data_type ∉
      [TaskType.segmentation, TaskType.obj_detection, TaskType.text])
    (hne : ts.y ≠ [])
    (h1 : ∀ k ∈ nb_per_class ts.y, k = 1) :
    log_weights_sum ts.y = 0 ∧
    get_balanced_sampler ts true = .ok ⟨sample_weights ts.y true, ts.length⟩ := by
  constructor
  · rw [log_weights_sum]
    apply List.sum_eq_zero
    intro x hx
    rw [log_weights_raw, List.mem_map] at hx
    rcases hx with ⟨w, hw, rfl⟩
    rw [weights_per_class, List.mem_map] at hw
    rcases hw with ⟨n, hn, rfl⟩
    rw [h1 n hn]
    norm_num
  · rw [get_balanced_sampler, if_neg hsupp]

/-- C10 witness: labels `[0, 1]` — both classes occur exactly once. -/
theorem log_singleton_classes_witness :
    ((⟨[4, 5], [0, 1], [0, 0], 0, TaskType.image_array⟩ :
        TaskSet ℕ ℕ).data_type ∉
      [TaskType.segmentation, TaskType.obj_detection, TaskType.text] ∧
      ([0, 1] : List ℕ) ≠ [] ∧
      ∀ k ∈ nb_per_class [0, 1], k = 1) ∧
    (log_weights_sum [0, 1] = 0 ∧
      get_balanced_sampler
          (⟨[4, 5], [0, 1], [0, 0], 0, TaskType.image_array⟩ :
            TaskSet ℕ ℕ) true =
        .ok ⟨sample_weights [0, 1] true,
          (⟨[4, 5], [0, 1], [0, 0], 0, TaskType.image_array⟩ :
            TaskSet ℕ ℕ).length⟩) :=
  ⟨⟨by decide, by decide, by decide⟩,
    log_singleton_classes
      (⟨[4, 5], [0, 1], [0, 0], 0, TaskType.image_array⟩ : TaskSet ℕ ℕ)
      (by decide) (by decide) (by decide)⟩
